import Mathlib

/-!
Shallow embedding of the `ml_runtime` value model from
`src/compiler/runtime.cpp` / `runtime.h`.

Modelling conventions:
* C++ `double` is modelled by `ℚ` (exact rationals).  The claims settled
  here are about control flow (which branch is taken, which error is
  raised) and exact arithmetic identities, not about rounding.
* `ValuePtr` values are modelled by the inductive `Value`.  `Number`,
  `String` and `Function` are immutable in the C++ code, so they are
  embedded by value.  `List` objects are mutable shared containers, so a
  `Value.listRef r` holds an address `r` into an explicit store
  `Store := List (List Value)`; address `r` reads slot `r` of the store,
  and `std::make_shared<List>(...)` allocates a fresh slot at the end.
* C++ exceptions (`throw std::runtime_error(msg)`) are embedded as
  `Except.error msg` (as `NumResult.thrown msg` for the builtin `num`),
  carrying the exact message string of the source.
  The spec's abstract error kinds map to these messages, e.g.
  DivisionByZero = "Division by zero",
  IndexOutOfRange = "List index out of range",
  UndefinedVariable = "Variable 'NAME' not defined",
  ParseError = "Cannot convert string to number",
  TypeMismatch = "Cannot convert to number".
-/

namespace MLRuntime

/-- Runtime values (`Number`, `String`, `List`, `Function` in runtime.h).
A `List` value is a reference into the store; a `Function` is embedded by
its name only (its native callable is irrelevant to the claims). -/
inductive Value where
  | number (v : ℚ)
  | str (s : String)
  | listRef (r : Nat)
  | func (name : String)
  deriving DecidableEq

/-- The heap of list objects: slot `r` holds the element vector of the
`List` object at address `r`. -/
abbrev Store := List (List Value)

/-- `Value::isNumber` (overridden to `true` only by `Number`). -/
def Value.isNumber : Value → Bool
  | .number _ => true
  | _ => false

/-- `Value::isString` (overridden to `true` only by `String`). -/
def Value.isString : Value → Bool
  | .str _ => true
  | _ => false

/-- `Value::isList` (overridden to `true` only by `List`). -/
def Value.isList : Value → Bool
  | .listRef _ => true
  | _ => false

/-- Translation of `List::asList` (runtime.cpp:270-272): it returns
`std::make_shared<List>(*this)`, i.e. it allocates a NEW list object that
is a shallow copy of the receiver, and returns the fresh address.
On a non-`List` receiver the base `Value::asList` throws. -/
def asListCopy (st : Store) (v : Value) : Except String (Store × Nat) :=
  match v with
  | .listRef r => .ok (st ++ [st.getD r []], st.length)
  | _ => .error "Cannot convert value to List"

/-- Translation of `List::append` (runtime.cpp:322-324): `push_back` on
the element vector of the list object at address `r`. -/
def listPush (st : Store) (r : Nat) (v : Value) : Store :=
  st.set r (st.getD r [] ++ [v])

/-- `static_cast<int>(double)`: truncation toward zero, on the `ℚ` model
of `double` (`Int.tdiv` truncates toward zero and the denominator of a
`Rat` is positive). -/
def doubleToInt (q : ℚ) : Int := q.num.tdiv q.den

/-- The index normalization shared by `List::getItem` and
`List::setItem` (runtime.cpp:299-301 and 311-313): a negative index is
shifted by the length (`index += elements_.size()`). -/
def normIndex (n : Nat) (index : Int) : Int :=
  if index < 0 then index + n else index

/-- Translation of `List::getItem` (runtime.cpp:298-308): a negative
index is shifted by the length; after normalization an index outside
`[0, length)` throws "List index out of range". -/
def listGetItem (xs : List Value) (index : Int) : Except String Value :=
  if normIndex xs.length index < 0 ∨
      (xs.length : Int) ≤ normIndex xs.length index then
    .error "List index out of range"
  else .ok (xs.getD (normIndex xs.length index).toNat (.number 0))

/-- Translation of `List::setItem` (runtime.cpp:310-320): same index
normalization and bounds check as `getItem`, then element replacement. -/
def listSetItem (xs : List Value) (index : Int) (v : Value) :
    Except String (List Value) :=
  if normIndex xs.length index < 0 ∨
      (xs.length : Int) ≤ normIndex xs.length index then
    .error "List index out of range"
  else .ok (xs.set (normIndex xs.length index).toNat v)

/-- Translation of the builtin `append` (runtime.cpp:438-453): requires
≥ 2 arguments and a `List` first argument, obtains a list pointer via
`args[0]->asList()` (which COPIES, see `asListCopy`), pushes the
remaining arguments onto that object in order, and returns it. -/
def append (st : Store) (args : List Value) : Except String (Store × Value) :=
  match args with
  | a0 :: a1 :: rest =>
    if a0.isList = false then .error "First argument to append() must be a list"
    else
      match asListCopy st a0 with
      | .error e => .error e
      | .ok (st1, r1) =>
        .ok ((a1 :: rest).foldl (fun s v => listPush s r1 v) st1, .listRef r1)
  | _ => .error "append() requires at least two arguments"

/-- Translation of the builtin `pop` (runtime.cpp:455-477): requires a
non-empty `List` first argument; the index defaults to `-1` and is taken
from the second argument only when that argument is a `Number`; the
selected element is returned and nothing is removed (the source carries
a `TODO: Remove the item from the list`). -/
def pop (st : Store) (args : List Value) : Except String (Store × Value) :=
  match args with
  | [] => .error "pop() requires at least one argument"
  | a0 :: rest =>
    if a0.isList = false then .error "First argument to pop() must be a list"
    else
      match asListCopy st a0 with
      | .error e => .error e
      | .ok (st1, r1) =>
        if (st1.getD r1 []).length = 0 then .error "Cannot pop from an empty list"
        else
          let index : Int :=
            match rest with
            | b :: _ => match b with
                        | .number q => doubleToInt q
                        | _ => -1
            | [] => -1
          match listGetItem (st1.getD r1 []) index with
          | .error e => .error e
          | .ok v => .ok (st1, v)

/-- Translation of the builtin `len` (runtime.cpp:424-436): throws when
called with no arguments; returns the element count of a `List` first
argument or the character count of a `String` first argument; throws on
any other first-argument type.  (The temporary copy made by
`args[0]->asList()` in the source does not escape, so `len` is embedded
as a read-only function of the store.) -/
def len (st : Store) (args : List Value) : Except String Value :=
  match args with
  | [] => .error "len() requires at least one argument"
  | a0 :: _ =>
    match a0 with
    | .listRef r => .ok (.number ((st.getD r []).length : ℚ))
    | .str s => .ok (.number (s.length : ℚ))
    | _ => .error "len() requires a list or string argument"

/-- Translation of `Number::divedBy` (runtime.cpp:131-141): division by
a `Number` throws "Division by zero" exactly when the divisor compares
equal to `0.0`, otherwise produces the quotient; any other operand type
delegates to `Value::divedBy`, which throws. -/
def numberDivedBy (a : ℚ) (other : Value) : Except String Value :=
  match other with
  | .number b =>
    if b = 0 then .error "Division by zero"
    else .ok (.number (a / b))
  | _ => .error "Division not supported for this type"

/-- The repetition loop shared by `Number::multedBy` (runtime.cpp:118-124)
and `String::multedBy` (runtime.cpp:258-262):
`for (int i = 0; i < count; ++i) result += str`, i.e. the text repeated
`count` times when `count > 0` and the empty string otherwise. -/
def repeatText (s : String) (count : Int) : String :=
  String.join (List.replicate count.toNat s)

/-- Translation of `Number::multedBy` (runtime.cpp:114-129):
Number×Number multiplies; Number×String repeats the string
`static_cast<int>(value_)` times; anything else delegates to the base,
which throws. -/
def numberMultedBy (a : ℚ) (other : Value) : Except String Value :=
  match other with
  | .number b => .ok (.number (a * b))
  | .str s => .ok (.str (repeatText s (doubleToInt a)))
  | _ => .error "Multiplication not supported for this type"

/-- Translation of `String::multedBy` (runtime.cpp:256-267): by a
Number, repeats the receiver `static_cast<int>(other)` times; by
anything else delegates to the base, which throws. -/
def stringMultedBy (s : String) (other : Value) : Except String Value :=
  match other with
  | .number b => .ok (.str (repeatText s (doubleToInt b)))
  | _ => .error "Multiplication not supported for this type"

/-! ### `std::stod` and the builtin `num` -/

/-- Whitespace as classified by the `std::isspace` skipping that
`std::stod` performs before parsing. -/
def isSpaceCh (c : Char) : Bool :=
  c = ' ' ∨ c = '\t' ∨ c = '\n' ∨ c = '\x0b' ∨ c = '\x0c' ∨ c = '\x0d'

/-- Decimal digit test. -/
def isDigitCh (c : Char) : Bool := '0' ≤ c ∧ c ≤ '9'

/-- Value of a run of decimal digits, most significant first. -/
def digitsToNat (ds : List Char) : Nat :=
  ds.foldl (fun a c => 10 * a + (c.toNat - '0'.toNat)) 0

/-- Hexadecimal digit test. -/
def isHexDigitCh (c : Char) : Bool :=
  isDigitCh c ∨ ('a' ≤ c ∧ c ≤ 'f') ∨ ('A' ≤ c ∧ c ≤ 'F')

/-- Value of one hexadecimal digit. -/
def hexVal (c : Char) : Nat :=
  if isDigitCh c then c.toNat - '0'.toNat
  else if 'a' ≤ c ∧ c ≤ 'f' then c.toNat - 'a'.toNat + 10
  else c.toNat - 'A'.toNat + 10

/-- Value of a run of hexadecimal digits, most significant first. -/
def hexDigitsToNat (ds : List Char) : Nat :=
  ds.foldl (fun a c => 16 * a + hexVal c) 0

/-- ASCII lower-casing, for `strtod`'s case-insensitive `inf` / `nan`
keywords. -/
def toLowerCh (c : Char) : Char :=
  if 'A' ≤ c ∧ c ≤ 'Z' then Char.ofNat (c.toNat + 32) else c

/-- `DBL_MAX`, the largest finite IEEE-754 double, exactly:
`(2^53 - 1) * 2^971`. -/
def maxDouble : ℚ := (2 ^ 53 - 1) * 2 ^ 971

/-- The outcome of a `std::stod` call, as observable by `num`:

* `finite v` — the call returns a finite double; `v` is the parsed
  value, exact over `ℚ` (rounding to the nearest double is below the
  resolution of this model of `double`, as disclosed in the header);
* `inf neg` / `nan` — the call succeeds, returning `±INFINITY` or a
  NaN: real values of the program's `double` that the `ℚ` model of
  finite doubles cannot name;
* `outOfRange` — the parsed magnitude exceeds the range of `double`,
  so the call throws `std::out_of_range`;
* `invalid` — no conversion could be performed, so the call throws
  `std::invalid_argument`. -/
inductive StodResult where
  | finite (v : ℚ)
  | inf (neg : Bool)
  | nan
  | outOfRange
  | invalid
  deriving DecidableEq

/-- The decimal and hexadecimal exponent tail of `strtod`'s grammar:
`[marker [sign] digits]` with decimal digits; an exponent marker not
followed by a digit is not consumed (exponent `0`). -/
def stodExponent (m1 m2 : Char) (cs : List Char) : Int :=
  match cs with
  | c :: rest =>
    if c = m1 ∨ c = m2 then
      let esr : Int × List Char :=
        match rest with
        | '+' :: r2 => (1, r2)
        | '-' :: r2 => (-1, r2)
        | _ => (1, rest)
      let eds := esr.2.takeWhile isDigitCh
      if eds.isEmpty then 0 else esr.1 * (digitsToNat eds : Int)
    else 0
  | [] => 0

/-- Model of `std::stod` (`strtod` with the default "C" locale): skip
leading whitespace and one optional sign, then the LONGEST valid prefix
of one of the forms accepted by `strtod`:

* `inf` / `infinity` and `nan` / `nan(...)`, case-insensitively —
  accepted, producing a non-finite double;
* `0x`/`0X` `hexdigits [. hexdigits] [p|P [sign] digits]` with at least
  one mantissa hex digit — the mantissa is read in base 16 and the
  exponent is a power of 2;
* `digits [. digits] [e|E [sign] digits]` with at least one mantissa
  digit.

Characters after the accepted prefix are ignored (`num` never looks at
how much was consumed).  When no form matches (e.g. `"abc"`, or `"0x"`
with no hex digit, which falls back to the decimal prefix `"0"`), the
C++ call throws `std::invalid_argument` (`invalid`).  A parsed finite
magnitude beyond `DBL_MAX` makes the C++ call throw
`std::out_of_range` (`outOfRange`).  The conversion itself is exact
over `ℚ`; two disclosed approximations of this model: rounding to the
nearest representable double is dropped (so the overflow test compares
the exact value against `DBL_MAX`), and a tiny-but-nonzero result is a
plain `finite` success (whether an underflow reports `ERANGE` is
implementation-defined per the C standard). -/
def stod (cs : List Char) : StodResult :=
  let cs1 := cs.dropWhile isSpaceCh
  let sc : Bool × List Char :=
    match cs1 with
    | '+' :: rest => (false, rest)
    | '-' :: rest => (true, rest)
    | _ => (false, cs1)
  let neg := sc.1
  let cs2 := sc.2
  if (cs2.take 3).map toLowerCh = ['i', 'n', 'f'] then .inf neg
  else if (cs2.take 3).map toLowerCh = ['n', 'a', 'n'] then .nan
  else
    let hx : Bool :=
      match cs2 with
      | '0' :: x :: rest =>
        (x == 'x' || x == 'X') &&
          (!(rest.takeWhile isHexDigitCh).isEmpty ||
            (match rest.dropWhile isHexDigitCh with
             | '.' :: r2 => !(r2.takeWhile isHexDigitCh).isEmpty
             | _ => false))
      | _ => false
    if hx then
      let rest := cs2.drop 2
      let ip := rest.takeWhile isHexDigitCh
      let cs3 := rest.dropWhile isHexDigitCh
      let fpr : List Char × List Char :=
        match cs3 with
        | '.' :: r2 => (r2.takeWhile isHexDigitCh, r2.dropWhile isHexDigitCh)
        | _ => ([], cs3)
      let mant : ℚ :=
        (hexDigitsToNat ip : ℚ) +
          (hexDigitsToNat fpr.1 : ℚ) / ((16 : ℚ) ^ fpr.1.length)
      let v : ℚ := (if neg then -1 else 1) * mant *
        (2 : ℚ) ^ stodExponent 'p' 'P' fpr.2
      if maxDouble < v ∨ v < -maxDouble then .outOfRange else .finite v
    else
      let ip := cs2.takeWhile isDigitCh
      let cs3 := cs2.dropWhile isDigitCh
      let fpr : List Char × List Char :=
        match cs3 with
        | '.' :: r2 => (r2.takeWhile isDigitCh, r2.dropWhile isDigitCh)
        | _ => ([], cs3)
      if ip.isEmpty ∧ fpr.1.isEmpty then .invalid
      else
        let mant : ℚ :=
          (digitsToNat ip : ℚ) +
            (digitsToNat fpr.1 : ℚ) / ((10 : ℚ) ^ fpr.1.length)
        let v : ℚ := (if neg then -1 else 1) * mant *
          (10 : ℚ) ^ stodExponent 'e' 'E' fpr.2
        if maxDouble < v ∨ v < -maxDouble then .outOfRange else .finite v

/-- The result of a call to the builtin `num`, runtime.cpp:487-504:

* `value v` — the call returns `v` (a value the `ℚ` double model
  represents);
* `nonFinite` — the call succeeds, returning a `Number` whose `double`
  payload is `±INFINITY` or a NaN (real program behavior; the payload
  lies outside the `ℚ` model of finite doubles, so the model records
  the success without naming the value);
* `thrown msg` — the call throws `std::runtime_error(msg)`. -/
inductive NumResult where
  | value (v : Value)
  | nonFinite
  | thrown (msg : String)
  deriving DecidableEq

/-- Translation of the builtin `num` (runtime.cpp:487-504): no arguments
yields `Number(0.0)`; a `Number` first argument is returned unchanged; a
`String` first argument is handed to `std::stod` — both of stod's
exceptions (`std::invalid_argument` and `std::out_of_range`) are caught
by the `catch (const std::exception&)` and rethrown as
"Cannot convert string to number", while every successful parse
(including a non-finite one) is wrapped in a `Number`; any other type
throws "Cannot convert to number".  The source never checks how many
characters `stod` consumed. -/
def num (args : List Value) : NumResult :=
  match args with
  | [] => .value (.number 0)
  | a0 :: _ =>
    match a0 with
    | .number _ => .value a0
    | .str s =>
      match stod s.data with
      | .finite v => .value (.number v)
      | .inf _ => .nonFinite
      | .nan => .nonFinite
      | .outOfRange => .thrown "Cannot convert string to number"
      | .invalid => .thrown "Cannot convert string to number"
    | _ => .thrown "Cannot convert to number"

/-! ### Context (lexical environment) -/

/-- A context's local variable mapping (`std::map<std::string, ValuePtr>
variables_`): association list with unique keys, maintained by
`frameSet`. -/
abbrev Frame := List (String × Value)

/-- `variables_[name] = value`: insert or overwrite the unique entry for
`name`. -/
def frameSet : Frame → String → Value → Frame
  | [], n, v => [(n, v)]
  | (m, w) :: rest, n, v =>
    if m = n then (n, v) :: rest else (m, w) :: frameSet rest n v

/-- `variables_.find(name)`: the value bound to `name` in this frame, if
any. -/
def frameFind : Frame → String → Option Value
  | [], _ => none
  | (m, w) :: rest, n => if m = n then some w else frameFind rest n

/-- A `Context` (runtime.h / runtime.cpp:352-383): a local frame and an
optional parent (`base` has `parent_ == nullptr`). -/
inductive Context where
  | base (vars : Frame)
  | child (vars : Frame) (parent : Context)

/-- Translation of `Context::setVariable` (runtime.cpp:352-354): writes
`variables_[name] = value` on the receiver only; the parent chain is
untouched. -/
def Context.setVariable : Context → String → Value → Context
  | .base vars, n, v => .base (frameSet vars n v)
  | .child vars p, n, v => .child (frameSet vars n v) p

/-- Translation of `Context::getVariable` (runtime.cpp:356-367): local
lookup first, then recurse to the parent; throws
"Variable 'NAME' not defined" when the chain is exhausted. -/
def Context.getVariable : Context → String → Except String Value
  | .base vars, n =>
    match frameFind vars n with
    | some v => .ok v
    | none => .error ("Variable '" ++ n ++ "' not defined")
  | .child vars p, n =>
    match frameFind vars n with
    | some v => .ok v
    | none => p.getVariable n

/-- Translation of `Context::hasVariable` (runtime.cpp:369-379): same
traversal as `getVariable`, returning a `Bool`, total. -/
def Context.hasVariable : Context → String → Bool
  | .base vars, n => (frameFind vars n).isSome
  | .child vars p, n => (frameFind vars n).isSome || p.hasVariable n

/-- Success test for an `Except` result (a `getVariable` call that does
not throw). -/
def exceptOk {ε α : Type} : Except ε α → Bool
  | .ok _ => true
  | .error _ => false

/-! ## List/store access lemmas -/

theorem getD_set_self {α : Type} (l : List α) (r : Nat) (x d : α)
    (h : r < l.length) : (l.set r x).getD r d = x := by
  rw [List.getD_eq_getElem?_getD, List.getElem?_set_self h]
  rfl

theorem getD_set_ne {α : Type} (l : List α) (q r : Nat) (x d : α)
    (h : r ≠ q) : (l.set r x).getD q d = l.getD q d := by
  rw [List.getD_eq_getElem?_getD, List.getElem?_set_ne h,
    ← List.getD_eq_getElem?_getD]

theorem store_getD_set_self (st : Store) (r : Nat) (xs : List Value)
    (h : r < st.length) : (st.set r xs).getD r [] = xs :=
  getD_set_self st r xs [] h

theorem store_getD_set_ne (st : Store) (q r : Nat) (xs : List Value)
    (h : r ≠ q) : (st.set r xs).getD q [] = st.getD q [] :=
  getD_set_ne st q r xs [] h

theorem store_getD_append_left (st : Store) (xs : List Value) (r : Nat)
    (h : r < st.length) : (st ++ [xs]).getD r [] = st.getD r [] := by
  rw [List.getD_eq_getElem?_getD, List.getElem?_append, if_pos h,
    ← List.getD_eq_getElem?_getD]

theorem store_getD_append_self (st : Store) (xs : List Value) :
    (st ++ [xs]).getD st.length [] = xs := by
  rw [List.getD_eq_getElem?_getD, List.getElem?_concat_length]
  rfl

theorem foldl_listPush_length (vs : List Value) (st : Store) (r : Nat) :
    (vs.foldl (fun s v => listPush s r v) st).length = st.length := by
  induction vs generalizing st with
  | nil => rfl
  | cons v vs ih => rw [List.foldl_cons, ih, listPush, List.length_set]

theorem foldl_listPush_getD_ne (vs : List Value) (st : Store) (q r : Nat)
    (h : r ≠ q) :
    (vs.foldl (fun s v => listPush s r v) st).getD q [] = st.getD q [] := by
  induction vs generalizing st with
  | nil => rfl
  | cons v vs ih =>
    rw [List.foldl_cons, ih, listPush, store_getD_set_ne _ _ _ _ h]

theorem foldl_listPush_getD_self (vs : List Value) (st : Store) (r : Nat)
    (h : r < st.length) :
    (vs.foldl (fun s v => listPush s r v) st).getD r [] = st.getD r [] ++ vs := by
  induction vs generalizing st with
  | nil => simp
  | cons v vs ih =>
    have h2 : r < (listPush st r v).length := by
      rw [listPush, List.length_set]; exact h
    rw [List.foldl_cons, ih _ h2, listPush, store_getD_set_self _ _ _ h]
    simp

theorem listGetItem_ok (xs : List Value) (i : Int)
    (h1 : 0 ≤ normIndex xs.length i)
    (h2 : normIndex xs.length i < (xs.length : Int)) :
    listGetItem xs i =
      .ok (xs.getD (normIndex xs.length i).toNat (.number 0)) := by
  rw [listGetItem, if_neg (by omega)]

theorem listGetItem_err (xs : List Value) (i : Int)
    (h : normIndex xs.length i < 0 ∨ (xs.length : Int) ≤ normIndex xs.length i) :
    listGetItem xs i = .error "List index out of range" := by
  rw [listGetItem, if_pos h]

theorem listSetItem_ok (xs : List Value) (i : Int) (v : Value)
    (h1 : 0 ≤ normIndex xs.length i)
    (h2 : normIndex xs.length i < (xs.length : Int)) :
    listSetItem xs i v = .ok (xs.set (normIndex xs.length i).toNat v) := by
  rw [listSetItem, if_neg (by omega)]

theorem listSetItem_err (xs : List Value) (i : Int) (v : Value)
    (h : normIndex xs.length i < 0 ∨ (xs.length : Int) ≤ normIndex xs.length i) :
    listSetItem xs i v = .error "List index out of range" := by
  rw [listSetItem, if_pos h]

theorem normIndex_neg_one (n : Nat) (h : 0 < n) :
    normIndex n (-1) = (n : Int) - 1 := by
  rw [normIndex, if_pos (by omega)]
  omega

theorem listGetItem_last (xs : List Value) (h : xs ≠ []) :
    listGetItem xs (-1) = .ok (xs.getD (xs.length - 1) (.number 0)) := by
  have hl : 0 < xs.length := List.length_pos.mpr h
  have hn : normIndex xs.length (-1) = (xs.length : Int) - 1 :=
    normIndex_neg_one xs.length hl
  have ht : ((xs.length : Int) - 1).toNat = xs.length - 1 := by omega
  rw [listGetItem_ok xs (-1) (by omega) (by omega), hn, ht]

/-! ## C1: the builtin `append` and aliasing -/

/-- C1: the claim states that `append [L, v1, ..., vn]` appends to the
SAME shared list `L` and returns it, so that aliases of `L` observe the
new elements.  On the code this is false: `args[0]->asList()` copies, so
with store `[[1]]` and `L = listRef 0`, `append(L, 2)` returns the fresh
object at address 1 (not `L`), and the list at address 0 still holds the
single element `1` — no alias of `L` observes any change, and `L`'s
length has not grown. -/
theorem C1_counterexample :
    append [[Value.number 1]] [Value.listRef 0, Value.number 2] =
      .ok ([[Value.number 1], [Value.number 1, Value.number 2]],
        Value.listRef 1) ∧
    Value.listRef 1 ≠ Value.listRef 0 ∧
    ([[Value.number 1], [Value.number 1, Value.number 2]] : Store).getD 0 [] =
      [Value.number 1] := by
  refine ⟨rfl, by decide, rfl⟩

/-- C1 (amended): for every store, every valid list address `r` and
arguments `v :: vs` (so at least two arguments in total), the builtin
`append` succeeds and returns a List value, but it is a FRESH list
object (address `st.length`, distinct from `r`): the fresh object holds
the original elements followed by `v :: vs` (its length has grown by
`n`), while the list at `r` — and hence every alias of the first
argument — is unchanged. -/
theorem C1_append_returns_fresh_copy (st : Store) (r : Nat) (v : Value)
    (vs : List Value) (hr : r < st.length) :
    ∃ st2,
      append st (Value.listRef r :: v :: vs) = .ok (st2, Value.listRef st.length) ∧
      st.length ≠ r ∧
      st2.getD r [] = st.getD r [] ∧
      st2.getD st.length [] = st.getD r [] ++ (v :: vs) ∧
      (st2.getD st.length []).length = (st.getD r []).length + (v :: vs).length := by
  have hlen : st.length < (st ++ [st.getD r []]).length := by
    rw [List.length_append, List.length_singleton]; omega
  refine ⟨(v :: vs).foldl (fun s w => listPush s st.length w) (st ++ [st.getD r []]),
    ?_, by omega, ?_, ?_, ?_⟩
  · rfl
  · rw [foldl_listPush_getD_ne _ _ _ _ (by omega),
      store_getD_append_left _ _ _ hr]
  · rw [foldl_listPush_getD_self _ _ _ hlen, store_getD_append_self]
  · rw [foldl_listPush_getD_self _ _ _ hlen, store_getD_append_self,
      List.length_append]

/-- Witness for C1 (amended) at the store `[[1]]`. -/
theorem C1_append_returns_fresh_copy_witness :
    ∃ st2,
      append [[Value.number 1]] [Value.listRef 0, Value.number 2] =
        .ok (st2, Value.listRef 1) ∧
      (1 : Nat) ≠ 0 ∧
      st2.getD 0 [] = [Value.number 1] ∧
      st2.getD 1 [] = [Value.number 1, Value.number 2] ∧
      (st2.getD 1 []).length = 2 :=
  C1_append_returns_fresh_copy [[Value.number 1]] 0 (Value.number 2) []
    (by decide)

/-! ## C5: `List::getItem` / `List::setItem` index handling -/

/-- C5: `getItem(i)` / `setItem(i, v)` normalize a negative index `i`
to `i + n`; a normalized index inside `[0, n)` selects (or replaces)
that element, any other index fails with IndexOutOfRange.  In
particular on `[1,2,3]`: `getItem(-1)` returns `3`, while `getItem(3)`
and `getItem(-4)` fail. -/
theorem C5_item_index (xs : List Value) (i : Int) (v : Value) :
    (0 ≤ normIndex xs.length i → normIndex xs.length i < (xs.length : Int) →
      listGetItem xs i =
          .ok (xs.getD (normIndex xs.length i).toNat (.number 0)) ∧
        listSetItem xs i v = .ok (xs.set (normIndex xs.length i).toNat v) ∧
        (xs.set (normIndex xs.length i).toNat v).getD
            (normIndex xs.length i).toNat (.number 0) = v) ∧
    (normIndex xs.length i < 0 ∨ (xs.length : Int) ≤ normIndex xs.length i →
      listGetItem xs i = .error "List index out of range" ∧
        listSetItem xs i v = .error "List index out of range") ∧
    listGetItem [Value.number 1, Value.number 2, Value.number 3] (-1) =
      .ok (Value.number 3) ∧
    listGetItem [Value.number 1, Value.number 2, Value.number 3] 3 =
      .error "List index out of range" ∧
    listGetItem [Value.number 1, Value.number 2, Value.number 3] (-4) =
      .error "List index out of range" := by
  refine ⟨fun h1 h2 => ⟨listGetItem_ok xs i h1 h2, listSetItem_ok xs i v h1 h2,
      getD_set_self xs _ v (.number 0) (by omega)⟩,
    fun h => ⟨listGetItem_err xs i h, listSetItem_err xs i v h⟩,
    rfl, rfl, rfl⟩

/-- Witness for C5 on the list `[1,2,3]` at index `-1` (in range) and
index `3` (out of range). -/
theorem C5_item_index_witness :
    listGetItem [Value.number 1, Value.number 2, Value.number 3] (-1) =
        .ok (Value.number 3) ∧
      listSetItem [Value.number 1, Value.number 2, Value.number 3] (-1)
          (Value.number 9) =
        .ok [Value.number 1, Value.number 2, Value.number 9] ∧
      listSetItem [Value.number 1, Value.number 2, Value.number 3] 3
          (Value.number 9) =
        .error "List index out of range" := by
  have h := C5_item_index [Value.number 1, Value.number 2, Value.number 3]
    (-1) (Value.number 9)
  have h3 := C5_item_index [Value.number 1, Value.number 2, Value.number 3]
    3 (Value.number 9)
  exact ⟨(h.1 (by decide) (by decide)).1, (h.1 (by decide) (by decide)).2.1,
    (h3.2.1 (by decide)).2⟩

/-! ## C3 and C10: the builtin `pop` -/

theorem doubleToInt_intCast (i : Int) : doubleToInt (i : ℚ) = i := by
  rw [doubleToInt, Rat.num_intCast, Rat.den_intCast]
  simp

/-- Evaluation of `pop` on a single `List` argument (default index
`-1`), with the copy allocated by `asList` left unsimplified. -/
theorem pop_listRef_nil (st : Store) (r : Nat) :
    pop st [Value.listRef r] =
      (if ((st ++ [st.getD r []]).getD st.length []).length = 0 then
        .error "Cannot pop from an empty list"
      else
        match listGetItem ((st ++ [st.getD r []]).getD st.length []) (-1) with
        | .error e => .error e
        | .ok v => .ok (st ++ [st.getD r []], v)) := rfl

/-- Evaluation of `pop` when the second argument is a `Number`: the
index is `static_cast<int>` of its value. -/
theorem pop_listRef_number (st : Store) (r : Nat) (q : ℚ)
    (tail : List Value) :
    pop st (Value.listRef r :: Value.number q :: tail) =
      (if ((st ++ [st.getD r []]).getD st.length []).length = 0 then
        .error "Cannot pop from an empty list"
      else
        match listGetItem ((st ++ [st.getD r []]).getD st.length [])
            (doubleToInt q) with
        | .error e => .error e
        | .ok v => .ok (st ++ [st.getD r []], v)) := rfl

/-- Evaluation of `pop` when the second argument is present but not a
`Number`: the index stays at its default `-1`. -/
theorem pop_listRef_other (st : Store) (r : Nat) (b : Value)
    (tail : List Value) (hb : b.isNumber = false) :
    pop st (Value.listRef r :: b :: tail) =
      (if ((st ++ [st.getD r []]).getD st.length []).length = 0 then
        .error "Cannot pop from an empty list"
      else
        match listGetItem ((st ++ [st.getD r []]).getD st.length []) (-1) with
        | .error e => .error e
        | .ok v => .ok (st ++ [st.getD r []], v)) := by
  cases b with
  | number q => exact absurd hb (by rw [Value.isNumber]; exact fun h => nomatch h)
  | str s => rfl
  | listRef q => rfl
  | func n => rfl

/-- Evaluation of `pop` on a `List` first argument and arbitrary
remaining arguments, with the index selection left as written. -/
theorem pop_listRef_rest (st : Store) (r : Nat) (rest : List Value) :
    pop st (Value.listRef r :: rest) =
      (if ((st ++ [st.getD r []]).getD st.length []).length = 0 then
        .error "Cannot pop from an empty list"
      else
        match listGetItem ((st ++ [st.getD r []]).getD st.length [])
            (match rest with
             | b :: _ => (match b with | .number q => doubleToInt q | _ => -1)
             | [] => -1) with
        | .error e => .error e
        | .ok v => .ok (st ++ [st.getD r []], v)) := rfl

/-- C3: on a non-empty list value, `pop` returns the selected element
(the last one by default, the one at index `i` — normalized as in
`getItem` — when a Number second argument is given) and removes
nothing: the store it returns extends the old one with the temporary
copy made by `asList`, and the list at address `r` still holds exactly
its old elements.  `pop` fails on no arguments, on a non-List first
argument, and on an empty list. -/
theorem C3_pop_does_not_remove (st : Store) (r r2 : Nat) (i : Int)
    (b : Value) (tail : List Value)
    (hr : r < st.length) (hne : st.getD r [] ≠ []) :
    (pop st [Value.listRef r] =
        .ok (st ++ [st.getD r []],
          (st.getD r []).getD ((st.getD r []).length - 1) (.number 0)) ∧
      (st ++ [st.getD r []]).getD r [] = st.getD r []) ∧
    (0 ≤ normIndex (st.getD r []).length i →
      normIndex (st.getD r []).length i < ((st.getD r []).length : Int) →
      pop st [Value.listRef r, Value.number (i : ℚ)] =
        .ok (st ++ [st.getD r []],
          (st.getD r []).getD (normIndex (st.getD r []).length i).toNat
            (.number 0))) ∧
    pop st [] = .error "pop() requires at least one argument" ∧
    (b.isList = false →
      pop st (b :: tail) = .error "First argument to pop() must be a list") ∧
    (st.getD r2 [] = [] →
      pop st (Value.listRef r2 :: tail) =
        .error "Cannot pop from an empty list") := by
  have h0 : ¬((st.getD r []).length = 0) :=
    fun h => hne (List.length_eq_zero.mp h)
  refine ⟨⟨?_, store_getD_append_left st _ r hr⟩, ?_, rfl, ?_, ?_⟩
  · have ev := pop_listRef_nil st r
    rw [store_getD_append_self] at ev
    rw [ev, if_neg h0, listGetItem_last _ hne]
  · intro h1 h2
    have ev := pop_listRef_number st r ((i : Int) : ℚ) []
    rw [store_getD_append_self, doubleToInt_intCast] at ev
    rw [ev, if_neg h0, listGetItem_ok _ _ h1 h2]
  · intro hb
    cases b with
    | number q => rfl
    | str s => rfl
    | listRef q => exact absurd hb (by rw [Value.isList]; exact fun h => nomatch h)
    | func n => rfl
  · intro h
    have ev := pop_listRef_rest st r2 tail
    rw [store_getD_append_self] at ev
    rw [ev, if_pos (by rw [h]; rfl)]

/-- Witness for C3 on the store `[[1, 2]]`: `pop(L)` returns `2`,
`pop(L, 0)` returns `1`, and the list at address 0 is unchanged. -/
theorem C3_pop_does_not_remove_witness :
    (pop [[Value.number 1, Value.number 2]] [Value.listRef 0] =
        .ok ([[Value.number 1, Value.number 2],
              [Value.number 1, Value.number 2]], Value.number 2) ∧
      ([[Value.number 1, Value.number 2],
        [Value.number 1, Value.number 2]] : Store).getD 0 [] =
        [Value.number 1, Value.number 2]) ∧
    pop [[Value.number 1, Value.number 2]]
        [Value.listRef 0, Value.number ((0 : Int) : ℚ)] =
      .ok ([[Value.number 1, Value.number 2],
            [Value.number 1, Value.number 2]], Value.number 1) := by
  have h := C3_pop_does_not_remove [[Value.number 1, Value.number 2]] 0 0 0
    (Value.number 0) [] (by decide) (by decide)
  exact ⟨h.1, h.2.1 (by decide) (by decide)⟩

/-- C10 (implicit): a second `pop` argument that is present but not a
Number is silently ignored: the call behaves exactly like single-argument
`pop` and returns the last element. -/
theorem C10_pop_ignores_nonnumber_index (st : Store) (r : Nat) (b : Value)
    (tail : List Value) (hr : r < st.length) (hne : st.getD r [] ≠ [])
    (hb : b.isNumber = false) :
    pop st (Value.listRef r :: b :: tail) = pop st [Value.listRef r] ∧
    pop st (Value.listRef r :: b :: tail) =
      .ok (st ++ [st.getD r []],
        (st.getD r []).getD ((st.getD r []).length - 1) (.number 0)) := by
  have h0 : ¬((st.getD r []).length = 0) :=
    fun h => hne (List.length_eq_zero.mp h)
  have ev := pop_listRef_other st r b tail hb
  rw [store_getD_append_self] at ev
  have ev1 := pop_listRef_nil st r
  rw [store_getD_append_self] at ev1
  rw [ev, ev1, if_neg h0, listGetItem_last _ hne]
  exact ⟨rfl, rfl⟩

/-- Witness for C10: `pop([1,2], "x")` ignores the String index and
returns the last element `2`. -/
theorem C10_pop_ignores_nonnumber_index_witness :
    pop [[Value.number 1, Value.number 2]] [Value.listRef 0, Value.str "x"] =
        pop [[Value.number 1, Value.number 2]] [Value.listRef 0] ∧
      pop [[Value.number 1, Value.number 2]] [Value.listRef 0, Value.str "x"] =
        .ok ([[Value.number 1, Value.number 2],
              [Value.number 1, Value.number 2]], Value.number 2) :=
  C10_pop_ignores_nonnumber_index [[Value.number 1, Value.number 2]] 0
    (Value.str "x") [] (by decide) (by decide) (by decide)

/-! ## C4: the builtin `len` -/

/-- C4: the claim states that `len` succeeds exactly when called with
EXACTLY one List or String argument, and fails on any other argument
count.  On the code this is false: `len` only rejects an empty argument
list, so a two-argument call `len(List([]), Number(1))` succeeds and
returns `Number(0)` instead of failing. -/
theorem C4_counterexample :
    len [[]] [Value.listRef 0, Value.number 1] = .ok (Value.number 0) := rfl

/-- C4 (amended): `len` succeeds exactly when called with AT LEAST one
argument whose first is a List or a String — any extra arguments are
ignored — returning the element count / character count as a Number; it
fails on an empty argument list (arity message) and on any other
first-argument type (type message). -/
theorem C4_len_first_argument (st : Store) (r : Nat) (s : String)
    (v : Value) (rest : List Value) :
    len st [] = .error "len() requires at least one argument" ∧
    len st (Value.listRef r :: rest) =
      .ok (.number ((st.getD r []).length : ℚ)) ∧
    len st (Value.str s :: rest) = .ok (.number (s.length : ℚ)) ∧
    (v.isList = false → v.isString = false →
      len st (v :: rest) = .error "len() requires a list or string argument") ∧
    len st [Value.str "hello"] = .ok (Value.number 5) ∧
    len st [Value.number 1] =
      .error "len() requires a list or string argument" := by
  refine ⟨rfl, rfl, rfl, ?_, rfl, rfl⟩
  intro hl hs
  cases v with
  | number q => rfl
  | str t => exact absurd hs (by rw [Value.isString]; exact fun h => nomatch h)
  | listRef t => exact absurd hl (by rw [Value.isList]; exact fun h => nomatch h)
  | func n => rfl

/-- Witness for C4 (amended): `len(Number(1), Number(2))` hits the type
error even with two arguments present. -/
theorem C4_len_first_argument_witness :
    len [] [Value.number 1, Value.number 2] =
      .error "len() requires a list or string argument" :=
  (C4_len_first_argument [] 0 "" (Value.number 1) [Value.number 2]).2.2.2.1
    (by decide) (by decide)

/-! ## C6: `Number::divedBy` -/

/-- C6: `a.divedBy(b)` on Numbers fails with DivisionByZero exactly
when `b` equals `0.0`, otherwise returns the quotient `a / b`; on a
non-Number operand it fails with UnsupportedOperation. -/
theorem C6_divedBy_zero_test (a b : ℚ) (v : Value) :
    (numberDivedBy a (.number b) = .error "Division by zero" ↔ b = 0) ∧
    (b ≠ 0 → numberDivedBy a (.number b) = .ok (.number (a / b))) ∧
    (b ≠ 0 → a / b * b = a) ∧
    (v.isNumber = false →
      numberDivedBy a v = .error "Division not supported for this type") := by
  refine ⟨?_, ?_, fun hb => div_mul_cancel₀ a hb, ?_⟩
  · by_cases hb : b = 0 <;> simp [numberDivedBy, hb]
  · intro hb
    rw [numberDivedBy]
    simp [hb]
  · intro hv
    cases v with
    | number q => exact absurd hv (by rw [Value.isNumber]; exact fun h => nomatch h)
    | str t => rfl
    | listRef t => rfl
    | func n => rfl

/-- Witness for C6: `1 / 2` succeeds, the round trip holds, and
dividing by a String is rejected. -/
theorem C6_divedBy_zero_test_witness :
    numberDivedBy 1 (Value.number 2) = .ok (Value.number (1 / 2)) ∧
      (1 : ℚ) / 2 * 2 = 1 ∧
      numberDivedBy 1 (Value.str "x") =
        .error "Division not supported for this type" := by
  have h := C6_divedBy_zero_test 1 2 (Value.str "x")
  exact ⟨h.2.1 (by norm_num), h.2.2.1 (by norm_num), h.2.2.2 (by decide)⟩

/-! ## C7: string repetition through `multedBy` -/

theorem doubleToInt_nonpos (q : ℚ) (h : q ≤ 0) : doubleToInt q ≤ 0 := by
  have hn : q.num ≤ 0 := Rat.num_nonpos.mpr h
  have h1 : 0 ≤ (-q.num).tdiv q.den := Int.tdiv_nonneg (by omega) (by positivity)
  rw [Int.neg_tdiv] at h1
  rw [doubleToInt]
  omega

theorem doubleToInt_nonneg_floor (q : ℚ) (h : 0 ≤ q) : doubleToInt q = ⌊q⌋ := by
  rw [doubleToInt, Rat.floor_def]
  exact Int.tdiv_eq_ediv (Rat.num_nonneg.mpr h) (by positivity)

/-- C7: `Number(n).multedBy(String(s))` and
`String(s).multedBy(Number(n))` agree and produce the text of `s`
repeated `⌊n⌋` times (truncation toward zero and floor coincide on the
counts that matter), the empty string for every `n ≤ 0`, and
`String::multedBy` rejects a non-Number operand. -/
theorem C7_multedBy_repeats_string (q : ℚ) (s : String) (v : Value) :
    numberMultedBy q (.str s) = stringMultedBy s (.number q) ∧
    (q ≤ 0 → numberMultedBy q (.str s) = .ok (.str "")) ∧
    (0 ≤ q → numberMultedBy q (.str s) =
      .ok (.str (String.join (List.replicate (Int.toNat ⌊q⌋) s)))) ∧
    (v.isNumber = false →
      stringMultedBy s v = .error "Multiplication not supported for this type") ∧
    numberMultedBy 3 (.str "ab") = .ok (.str "ababab") ∧
    numberMultedBy 0 (.str "x") = .ok (.str "") := by
  refine ⟨rfl, ?_, ?_, ?_, rfl, rfl⟩
  · intro h
    have ht : (doubleToInt q).toNat = 0 := by
      have := doubleToInt_nonpos q h
      omega
    rw [numberMultedBy, repeatText, ht]
    rfl
  · intro h
    rw [numberMultedBy, repeatText, doubleToInt_nonneg_floor q h]
  · intro hv
    cases v with
    | number p => exact absurd hv (by rw [Value.isNumber]; exact fun h => nomatch h)
    | str t => rfl
    | listRef t => rfl
    | func n => rfl

/-- Witness for C7 at `n = 2`, `s = "ab"`: both orders repeat, a
negative count empties, and a List operand is rejected. -/
theorem C7_multedBy_repeats_string_witness :
    numberMultedBy 2 (Value.str "ab") = stringMultedBy "ab" (Value.number 2) ∧
      numberMultedBy (-1) (Value.str "ab") = .ok (.str "") ∧
      numberMultedBy 2 (Value.str "ab") =
        .ok (.str (String.join (List.replicate (Int.toNat ⌊(2 : ℚ)⌋) "ab"))) ∧
      stringMultedBy "ab" (Value.listRef 0) =
        .error "Multiplication not supported for this type" := by
  have h := C7_multedBy_repeats_string 2 "ab" (Value.listRef 0)
  have h1 := C7_multedBy_repeats_string (-1) "ab" (Value.listRef 0)
  exact ⟨h.1, h1.2.1 (by norm_num), h.2.2.1 (by norm_num), h.2.2.2.1 (by decide)⟩

/-! ## C2: the builtin `num` -/

/-- Evaluation of `num` on a String first argument: the `stod` branch
of runtime.cpp:494-500, with both exception kinds collapsed by the
`catch (const std::exception&)`. -/
theorem num_str_eval (s : String) (rest : List Value) :
    num (Value.str s :: rest) =
      (match stod s.data with
       | .finite v => .value (.number v)
       | .inf _ => .nonFinite
       | .nan => .nonFinite
       | .outOfRange => .thrown "Cannot convert string to number"
       | .invalid => .thrown "Cannot convert string to number") := rfl

theorem stod_full_text : stod "3.14".data = .finite (157 / 50) := by
  simp +decide [stod, stodExponent, isSpaceCh, isDigitCh, isHexDigitCh,
    toLowerCh, digitsToNat]
  norm_num [maxDouble]

theorem stod_ignores_trailing : stod "3.14abc".data = .finite (157 / 50) := by
  simp +decide [stod, stodExponent, isSpaceCh, isDigitCh, isHexDigitCh,
    toLowerCh, digitsToNat]
  norm_num [maxDouble]

theorem stod_no_digits : stod "abc".data = .invalid := by
  simp +decide [stod, isSpaceCh, isDigitCh, isHexDigitCh, toLowerCh]

theorem stod_hex : stod "0x1A".data = .finite 26 := by
  simp +decide [stod, stodExponent, isSpaceCh, isDigitCh, isHexDigitCh,
    toLowerCh, hexDigitsToNat, hexVal]
  norm_num [maxDouble]

theorem stod_inf_keyword : stod "inf".data = .inf false := by
  simp +decide [stod, isSpaceCh, toLowerCh]

theorem stod_nan_keyword : stod "nan".data = .nan := by
  simp +decide [stod, isSpaceCh, toLowerCh]

theorem stod_overflow : stod "1e999".data = .outOfRange := by
  simp +decide [stod, stodExponent, isSpaceCh, isDigitCh, isHexDigitCh,
    toLowerCh, digitsToNat]
  norm_num [maxDouble]

/-- C2: the claim states that `num` on a String parses the FULL text
and fails with ParseError whenever the full text is not a valid
numeral.  On the code this is false: `std::stod` parses the longest
numeric prefix and the source never checks how much was consumed, so
`num(String("3.14abc"))` — whose full text is not a valid numeral —
succeeds with `Number(3.14)` (the exact rational `157/50` in this
model) instead of failing. -/
theorem C2_counterexample :
    num [Value.str "3.14abc"] = .value (Value.number (157 / 50)) := by
  rw [num_str_eval, stod_ignores_trailing]

/-- C2 (amended): `num()` yields `Number(0)`; a Number first argument
is returned unchanged; a String first argument is handed to
`std::stod`, which accepts the longest valid prefix of its full
grammar (decimal, hexadecimal `0x...`, and the case-insensitive
`inf`/`infinity`/`nan` keywords, after optional whitespace and sign):
`num` fails with ParseError exactly when no valid prefix exists
(`std::invalid_argument`, e.g. `"abc"`) or the parsed magnitude
exceeds `double`'s range (`std::out_of_range`, e.g. `"1e999"`);
otherwise it succeeds with the parsed Number — including trailing
garbage (`"3.14abc"` → 3.14), hex (`"0x1A"` → 26) and non-finite
results (`"inf"`, `"nan"`); any other first-argument type fails with
TypeMismatch. -/
theorem C2_num_parses_prefix (q x : ℚ) (ng : Bool) (s : String) (v : Value)
    (rest : List Value) :
    num [] = .value (.number 0) ∧
    num (Value.number q :: rest) = .value (Value.number q) ∧
    (stod s.data = .invalid →
      num [Value.str s] = .thrown "Cannot convert string to number") ∧
    (stod s.data = .outOfRange →
      num [Value.str s] = .thrown "Cannot convert string to number") ∧
    (stod s.data = .finite x → num [Value.str s] = .value (.number x)) ∧
    (stod s.data = .inf ng → num [Value.str s] = .nonFinite) ∧
    (stod s.data = .nan → num [Value.str s] = .nonFinite) ∧
    (v.isNumber = false → v.isString = false →
      num (v :: rest) = .thrown "Cannot convert to number") ∧
    num [Value.str "3.14"] = .value (.number (157 / 50)) ∧
    num [Value.str "abc"] = .thrown "Cannot convert string to number" ∧
    num [Value.str "0x1A"] = .value (.number 26) ∧
    num [Value.str "inf"] = .nonFinite ∧
    num [Value.str "1e999"] = .thrown "Cannot convert string to number" := by
  refine ⟨rfl, rfl, ?_, ?_, ?_, ?_, ?_, ?_, ?_, ?_, ?_, ?_, ?_⟩
  · intro h
    rw [num_str_eval, h]
  · intro h
    rw [num_str_eval, h]
  · intro h
    rw [num_str_eval, h]
  · intro h
    rw [num_str_eval, h]
  · intro h
    rw [num_str_eval, h]
  · intro h1 h2
    cases v with
    | number p => exact absurd h1 (by rw [Value.isNumber]; exact fun h => nomatch h)
    | str t => exact absurd h2 (by rw [Value.isString]; exact fun h => nomatch h)
    | listRef t => rfl
    | func m => rfl
  · rw [num_str_eval, stod_full_text]
  · rw [num_str_eval, stod_no_digits]
  · rw [num_str_eval, stod_hex]
  · rw [num_str_eval, stod_inf_keyword]
  · rw [num_str_eval, stod_overflow]

/-- Witness for C2 (amended): the prefix `"3.14"` of `"3.14abc"` is
parsed, `"abc"` is rejected, `"inf"` succeeds non-finitely, `"1e999"`
overflows into ParseError, and a Number passes through. -/
theorem C2_num_parses_prefix_witness :
    num [Value.str "3.14abc"] = .value (Value.number (157 / 50)) ∧
      num [Value.str "abc"] = .thrown "Cannot convert string to number" ∧
      num [Value.str "inf"] = .nonFinite ∧
      num [Value.str "1e999"] = .thrown "Cannot convert string to number" ∧
      num [Value.number 5] = .value (Value.number 5) := by
  have h := C2_num_parses_prefix 5 (157 / 50) false "3.14abc" (Value.listRef 0) []
  have h2 := C2_num_parses_prefix 5 (157 / 50) false "abc" (Value.listRef 0) []
  have h3 := C2_num_parses_prefix 5 (157 / 50) false "inf" (Value.listRef 0) []
  have h4 := C2_num_parses_prefix 5 (157 / 50) false "1e999" (Value.listRef 0) []
  exact ⟨h.2.2.2.2.1 stod_ignores_trailing, h2.2.2.1 stod_no_digits,
    h3.2.2.2.2.2.1 stod_inf_keyword, h4.2.2.2.1 stod_overflow, h.2.1⟩

/-! ## C8 and C9: the Context chain -/

theorem frameFind_frameSet_self (f : Frame) (n : String) (v : Value) :
    frameFind (frameSet f n v) n = some v := by
  induction f with
  | nil => simp [frameSet, frameFind]
  | cons p rest ih =>
    obtain ⟨m, w⟩ := p
    by_cases h : m = n
    · subst h
      simp [frameSet, frameFind]
    · simp [frameSet, frameFind, h, ih]

theorem getVariable_ok_iff_hasVariable (ctx : Context) (n : String) :
    exceptOk (Context.getVariable ctx n) = Context.hasVariable ctx n := by
  induction ctx with
  | base vars =>
    cases h : frameFind vars n <;>
      simp [Context.getVariable, Context.hasVariable, h, exceptOk]
  | child vars p ih =>
    cases h : frameFind vars n with
    | none => simp [Context.getVariable, Context.hasVariable, h, ih]
    | some w => simp [Context.getVariable, Context.hasVariable, h, exceptOk]

theorem getVariable_error_of_not_hasVariable (ctx : Context) (n : String)
    (h : Context.hasVariable ctx n = false) :
    Context.getVariable ctx n = .error ("Variable '" ++ n ++ "' not defined") := by
  induction ctx with
  | base vars =>
    rw [Context.hasVariable] at h
    cases hf : frameFind vars n with
    | none => simp [Context.getVariable, hf]
    | some w => rw [hf] at h; exact nomatch h
  | child vars p ih =>
    rw [Context.hasVariable] at h
    cases hf : frameFind vars n with
    | none =>
      rw [hf] at h
      simp only [Option.isSome_none, Bool.false_or] at h
      simp [Context.getVariable, hf, ih h]
    | some w => rw [hf] at h; exact nomatch h

/-- C8: `setVariable` writes to the receiver's own frame only — the
parent chain is structurally untouched — and the written binding is
what a subsequent local lookup returns; in the shadowing scenario the
child sees `x = 2` while the root still sees `x = 1`. -/
theorem C8_setVariable_shadows_locally (vars : Frame) (p ctx : Context)
    (n : String) (v : Value) :
    Context.setVariable (.child vars p) n v = .child (frameSet vars n v) p ∧
    Context.getVariable (Context.setVariable ctx n v) n = .ok v ∧
    Context.getVariable
        (Context.setVariable
          (Context.child [] (Context.base (frameSet [] "x" (Value.number 1))))
          "x" (Value.number 2)) "x" = .ok (Value.number 2) ∧
    Context.getVariable (Context.base (frameSet [] "x" (Value.number 1))) "x" =
      .ok (Value.number 1) := by
  refine ⟨rfl, ?_, rfl, rfl⟩
  cases ctx with
  | base vs => simp [Context.setVariable, Context.getVariable, frameFind_frameSet_self]
  | child vs q => simp [Context.setVariable, Context.getVariable, frameFind_frameSet_self]

/-- C9: `getVariable` succeeds exactly when `hasVariable` is true (both
walk the local frame first and then the parent chain), and when the
whole chain lacks the name — in particular on an empty root context —
it fails with UndefinedVariable naming the variable. -/
theorem C9_getVariable_agrees_with_hasVariable (ctx : Context) (n : String) :
    exceptOk (Context.getVariable ctx n) = Context.hasVariable ctx n ∧
    (Context.hasVariable ctx n = false →
      Context.getVariable ctx n =
        .error ("Variable '" ++ n ++ "' not defined")) ∧
    Context.getVariable (.base []) n =
      .error ("Variable '" ++ n ++ "' not defined") := by
  exact ⟨getVariable_ok_iff_hasVariable ctx n,
    getVariable_error_of_not_hasVariable ctx n, rfl⟩

/-- Witness for C9 on an empty root context and the name
`"undefined_name"`. -/
theorem C9_getVariable_agrees_with_hasVariable_witness :
    Context.getVariable (Context.base []) "undefined_name" =
      .error ("Variable '" ++ "undefined_name" ++ "' not defined") :=
  (C9_getVariable_agrees_with_hasVariable (Context.base []) "undefined_name").2.1
    rfl

end MLRuntime
